import Mathlib

/-!
Shallow embedding of the slot-driven selection/visibility reconciliation
logic of the `vaadin-checkbox-group` and `vaadin-tabsheet` components.

Sources:
* `src/packages/checkbox-group/src/vaadin-checkbox-group.js`
* `src/packages/tabsheet/src/vaadin-tabsheet-mixin.js`

JavaScript arrays become `List`, nullable / possibly-`undefined` values
become `Option`, thrown exceptions become `Except String`.  DOM element
identity is modelled by list position where the source compares references
(`panel !== selectedPanel`).
-/

namespace WebComponents

/-! ## Checkbox-group data model -/

/-- A slotted `<vaadin-checkbox>` as the group sees it: its `value` property
(the effective value, default `"on"` in the DOM), its `checked` and
`disabled` flags, and whether a `value` attribute was declared on it
(`hasAttribute('value')`). -/
structure Checkbox where
  value : String
  checked : Bool
  disabled : Bool
  hasValueAttr : Bool
  deriving Repr, DecidableEq

/-- The group-owned state the reconciliation logic reads and writes:
the `value` array of checked values plus the `required` and `disabled`
flags. -/
structure CheckboxGroup where
  value : List String
  required : Bool
  disabled : Bool
  deriving Repr, DecidableEq

/-- `checkValidity()` of `vaadin-checkbox-group.js` (lines 211-213):
`return !this.required || this.value.length > 0;`. -/
def checkValidity (g : CheckboxGroup) : Bool :=
  !g.required || decide (g.value.length > 0)

/-- `__addCheckboxToValue` (lines 304-308).  The returned `Bool` records
whether the `this.value = [...]` assignment executed: when the value is
already a member nothing is assigned, so the array reference stays the same
and no `value-changed` notification fires. -/
def addCheckboxToValue (value : List String) (v : String) : List String × Bool :=
  if value.contains v then (value, false) else (value ++ [v], true)

/-- `__removeCheckboxFromValue` (lines 314-318).  The `Bool` again records
whether `this.value` was reassigned; `filter` rebuilds the whole array. -/
def removeCheckboxFromValue (value : List String) (v : String) : List String × Bool :=
  if value.contains v then (value.filter (fun x => x != v), true) else (value, false)

/-- `__registerCheckbox` (lines 246-258): propagate the group's `disabled`
flag, then either fold the checked checkbox's value into the group's
`value`, or check the checkbox when its value is already a member.
Returns the updated group state and the updated checkbox.  (The assignment
`checkbox.checked = true` re-enters `__onCheckboxCheckedChanged`, whose
`__addCheckboxToValue` call is a no-op because the value is already a
member, so the net effect is as written here.) -/
def registerCheckbox (g : CheckboxGroup) (cb : Checkbox) : CheckboxGroup × Checkbox :=
  let cb := if g.disabled then { cb with disabled := true } else cb
  if cb.checked then
    ({ g with value := (addCheckboxToValue g.value cb.value).1 }, cb)
  else if g.value.contains cb.value then
    (g, { cb with checked := true })
  else
    (g, cb)

/-- `__unregisterCheckbox` (lines 266-272): when the removed checkbox is
checked, its value is removed from the group's `value`. -/
def unregisterCheckbox (g : CheckboxGroup) (cb : Checkbox) : CheckboxGroup × Bool :=
  if cb.checked then
    let r := removeCheckboxFromValue g.value cb.value
    ({ g with value := r.1 }, r.2)
  else
    (g, false)

/-- `__warnOfCheckboxesWithoutValue` (lines 228-238): the `console.warn`
fires when some checkbox of the batch has no `value` attribute and its
`value` property is falsy (the empty string) or the DOM default `"on"`. -/
def warnOfCheckboxesWithoutValue (checkboxes : List Checkbox) : Bool :=
  checkboxes.any fun cb => !cb.hasValueAttr && (cb.value == "" || cb.value == "on")

/-- State the `__valueChanged` observer (lines 339-354) reads and writes
besides `value` itself: the `has-value` host attribute, the slotted
checkboxes, and whether `validate()` ran in this pass. -/
structure ValueObsState where
  hasValue : Bool
  checkboxes : List Checkbox
  validated : Bool
  deriving Repr, DecidableEq

/-- `__valueChanged(value, oldValue)` (lines 339-354).  `value` is typed
`string | null | undefined` in the source's doc comment; a nullish `value`
makes `value.length` throw a `TypeError`, modelled by `Except.error`.
`oldValue = none` models `oldValue === undefined` (the initial call). -/
def valueChanged (value : Option (List String)) (oldValue : Option (List String))
    (st : ValueObsState) : Except String ValueObsState :=
  match value with
  | none => Except.error "TypeError: cannot read properties of a nullish value"
  | some v =>
    if v.length = 0 ∧ oldValue = none then Except.ok st
    else Except.ok
      { hasValue := decide (v.length > 0)
        checkboxes := st.checkboxes.map fun cb => { cb with checked := v.contains cb.value }
        validated := decide (oldValue ≠ none) }

/-! ## Tab-sheet data model -/

/-- A `<vaadin-tab>` item of the slotted `<vaadin-tabs>`: only its `id`
matters to the reconciler. -/
structure Tab where
  id : String
  deriving Repr, DecidableEq

/-- A panel element slotted into the tab sheet: its `tab` attribute
(`getAttribute('tab')` is `null` when absent, hence `Option`) and its
`hidden` flag. -/
structure Panel where
  tabAttr : Option String
  hidden : Bool
  deriving Repr, DecidableEq

/-- The host / content-region state `__selectedTabItemChanged` reads and
writes: the `loading` host attribute, `content.style.minHeight`
(`none` models the cleared style `''`) and the current rendered height
`content.offsetHeight`. -/
structure ContentState where
  loading : Bool
  minHeight : Option Nat
  offsetHeight : Nat
  deriving Repr, DecidableEq

/-- JavaScript `items[selected]`: `undefined` (`none`) when the index is
negative, fractional-free out of range, or past the end. -/
def jsIndex (items : List Tab) (i : Int) : Option Tab :=
  if i < 0 then none else items.get? i.toNat

/-- `__selectedTabItemChanged(selected, items, panels)` of
`vaadin-tabsheet-mixin.js` (lines 161-185).  Returns the updated panel
list (the source mutates each panel's `hidden` in place) and the updated
host/content state.  The guard `if (!items || !panels || selected ===
undefined) return;` leaves everything untouched.  `panels.find(...)`
followed by `panel !== selectedPanel` compares references, which the
embedding renders as comparison with the found index. -/
def selectedTabItemChanged (selected : Option Int) (items : Option (List Tab))
    (panels : Option (List Panel)) (st : ContentState) :
    Option (List Panel) × ContentState :=
  match items, panels, selected with
  | some items, some ps, some sel =>
    let selectedTab := jsIndex items sel
    let selectedTabId := match selectedTab with
      | some t => t.id
      | none => ""
    let selectedIdx := ps.findIdx? fun p => p.tabAttr == some selectedTabId
    let loading := selectedIdx.isNone
    let hasOneVisiblePanel := decide ((ps.filter fun p => !p.hidden).length = 1)
    let minHeight := match selectedIdx with
      | some _ => none
      | none => if hasOneVisiblePanel then some st.offsetHeight else st.minHeight
    let ps' := ps.enum.map fun ip => { ip.2 with hidden := selectedIdx != some ip.1 }
    (some ps', { st with loading := loading, minHeight := minHeight })
  | _, _, _ => (panels, st)

/-- The `<vaadin-tabs>` element as the tabs-slot controller sees it. -/
structure TabsEl where
  items : List Tab
  deriving Repr, DecidableEq

/-- A node slotted into the reserved `tabs` slot: either a genuine
`<vaadin-tabs>` element or some other element (identified by tag name). -/
inductive TabsSlotNode where
  | vaadinTabs (t : TabsEl)
  | other (tagName : String)
  deriving Repr, DecidableEq

/-- What a successful `initCustomNode` establishes: `this.tabs` /
`host.__tabs` point at the element and `__tabsItemsChangedListener` has
copied its items into the host's read-only `items` property. -/
structure TabsSlotRegistration where
  tabs : TabsEl
  hostItems : List Tab
  deriving Repr, DecidableEq

/-- `TabsSlotController.initCustomNode` (lines 33-43): a node that is not a
`<vaadin-tabs>` makes it throw synchronously; otherwise registration
completes. -/
def initCustomNode (node : TabsSlotNode) : Except String TabsSlotRegistration :=
  match node with
  | .vaadinTabs t => Except.ok { tabs := t, hostItems := t.items }
  | .other _ =>
    Except.error "The \"tabs\" slot of a <vaadin-tabsheet> must only contain a <vaadin-tabs> element!"

/-! ## Concrete inputs used by the witness theorems -/

/-- Two tabs, as in the spec's concrete tab-sheet scenario. -/
def demoTabs : List Tab := [{ id := "t1" }, { id := "t2" }]

/-- Panels associated with `demoTabs`, one per tab. -/
def demoPanels : List Panel :=
  [{ tabAttr := some "t1", hidden := false }, { tabAttr := some "t2", hidden := true }]

/-- A panel list in which no panel is associated with any of `demoTabs`. -/
def demoLoadingPanels : List Panel := [{ tabAttr := some "other", hidden := false }]

/-- A host/content state before a reconciliation pass. -/
def demoState : ContentState := { loading := false, minHeight := none, offsetHeight := 0 }

/-- An empty, optional, enabled checkbox group. -/
def demoGroup : CheckboxGroup := { value := [], required := false, disabled := false }

/-- A checked checkbox slotted without a `value` attribute, so its effective
value is the DOM default `"on"`. -/
def demoNoValueCheckbox : Checkbox :=
  { value := "on", checked := true, disabled := false, hasValueAttr := false }

/-- A checked checkbox with value `"b"`. -/
def demoChecked : Checkbox :=
  { value := "b", checked := true, disabled := false, hasValueAttr := true }

/-- A group currently holding the values `a`, `b`, `c`. -/
def demoGroupABC : CheckboxGroup := { value := ["a", "b", "c"], required := false, disabled := false }

/-! ## Helper lemmas -/

/-- `List.findIdx?` returns `some i` exactly when position `i` holds a match
and every earlier position holds a non-match: the JS `Array.prototype.find`
first-match-in-order semantics. -/
theorem findIdx?_eq_some_iff_first {α : Type} (p : α → Bool) (l : List α) (i : Nat) :
    l.findIdx? p = some i ↔
      ((∃ a, l[i]? = some a ∧ p a = true) ∧
       ∀ j, j < i → ∀ b, l[j]? = some b → p b = false) := by
  induction l generalizing i with
  | nil => simp
  | cons a as ih =>
    rw [List.findIdx?_cons]
    by_cases hp : p a = true
    · simp only [hp, if_true]
      cases i with
      | zero =>
        simp [hp]
      | succ k =>
        constructor
        · intro h; cases h
        · rintro ⟨-, hall⟩
          have h0 := hall 0 (Nat.succ_pos k) a (by simp)
          rw [hp] at h0; cases h0
    · rw [if_neg hp, List.findIdx?_succ]
      cases i with
      | zero =>
        constructor
        · intro h
          simp at h
        · rintro ⟨⟨b, hb, hpb⟩, -⟩
          simp at hb
          subst hb
          exact absurd hpb hp
      | succ k =>
        have hmap : (Option.map (fun i => i + 1) (as.findIdx? p) = some (k + 1)) ↔
            as.findIdx? p = some k := by
          cases h : as.findIdx? p <;> simp
        rw [hmap, ih k]
        constructor
        · rintro ⟨⟨b, hb, hpb⟩, hall⟩
          refine ⟨⟨b, by simpa using hb, hpb⟩, ?_⟩
          intro j hj c hc
          cases j with
          | zero =>
            simp at hc; subst hc
            simpa using hp
          | succ m =>
            exact hall m (by omega) c (by simpa using hc)
        · rintro ⟨⟨b, hb, hpb⟩, hall⟩
          refine ⟨⟨b, by simpa using hb, hpb⟩, ?_⟩
          intro j hj c hc
          exact hall (j + 1) (by omega) c (by simpa using hc)

/-- After `__registerCheckbox`, the checkbox's `checked` flag agrees with
membership of its value in the group's `value` array (shared by several
claim theorems below). -/
theorem registerCheckbox_checked_eq_membership (g : CheckboxGroup) (cb : Checkbox) :
    ((registerCheckbox g cb).2).checked = ((registerCheckbox g cb).1).value.contains cb.value := by
  by_cases hd : g.disabled <;> by_cases hc : cb.checked <;>
    by_cases hm : cb.value ∈ g.value <;>
      simp [registerCheckbox, addCheckboxToValue, hd, hc, hm]

/-! ## Claim theorems -/

/-- C1: on every reconciliation pass with non-null items and panels and an
in-range selected index, the resulting panel list shows (hidden = false)
exactly the first panel in snapshot order whose `tab` attribute equals the
selected tab's id, and hides every other panel — duplicates of the
association key included. -/
theorem tabsheet_shows_first_matching_panel
    (items : List Tab) (panels : List Panel) (sel : Nat) (t : Tab) (st : ContentState)
    (ht : items[sel]? = some t) :
    ∃ ps', (selectedTabItemChanged (some (sel : Int)) (some items) (some panels) st).1 = some ps' ∧
      ps'.length = panels.length ∧
      ∀ i : Nat, ((ps'[i]?).map Panel.hidden = some false ↔
        ((∃ p, panels[i]? = some p ∧ p.tabAttr = some t.id) ∧
         ∀ j, j < i → ∀ q, panels[j]? = some q → q.tabAttr ≠ some t.id)) := by
  have hjs : jsIndex items (sel : Int) = some t := by
    simp [jsIndex, ht]
  refine ⟨_, rfl, ?_, ?_⟩
  · simp [selectedTabItemChanged, hjs]
  · intro i
    simp only [selectedTabItemChanged, hjs]
    rw [List.getElem?_map, List.getElem?_enum]
    cases hpi : panels[i]? with
    | none =>
      simp
    | some p =>
      simp only [Option.map_some']
      have hidden_eq : ((panels.findIdx? fun q => q.tabAttr == some t.id) != some i) = false ↔
          panels.findIdx? (fun q => q.tabAttr == some t.id) = some i := by
        rw [bne_eq_false_iff_eq]
      constructor
      · intro h
        simp only [Option.some_inj] at h
        have hf : panels.findIdx? (fun q => q.tabAttr == some t.id) = some i := by
          rw [← hidden_eq]
          simpa using h
        rw [findIdx?_eq_some_iff_first] at hf
        obtain ⟨⟨a, ha, hpa⟩, hall⟩ := hf
        refine ⟨⟨a, hpi ▸ ha, by simpa using hpa⟩, ?_⟩
        intro j hj q hq
        have := hall j hj q hq
        simpa using this
      · rintro ⟨⟨a, ha, hpa⟩, hall⟩
        have hf : panels.findIdx? (fun q => q.tabAttr == some t.id) = some i := by
          rw [findIdx?_eq_some_iff_first]
          exact ⟨⟨a, hpi.trans ha, by simpa using hpa⟩,
            fun j hj b hb => by simpa using hall j hj b hb⟩
        simp [hf]

/-- Witness for C1 at the spec's concrete scenario: tabs `t1`, `t2`, one
panel per tab, `selected = 1`. -/
theorem tabsheet_shows_first_matching_panel_witness :
    ∃ ps', (selectedTabItemChanged (some ((1 : Nat) : Int)) (some demoTabs) (some demoPanels)
        demoState).1 = some ps' ∧
      ps'.length = demoPanels.length ∧
      ∀ i : Nat, ((ps'[i]?).map Panel.hidden = some false ↔
        ((∃ p, demoPanels[i]? = some p ∧ p.tabAttr = some "t2") ∧
         ∀ j, j < i → ∀ q, demoPanels[j]? = some q → q.tabAttr ≠ some "t2")) :=
  tabsheet_shows_first_matching_panel demoTabs demoPanels 1 { id := "t2" } demoState rfl

/-- C3: when the pass finds no panel matching the selected tab's id the host
gets the `loading` attribute and the content min-height is pinned to the
current rendered height exactly when one panel was otherwise visible;
when a pass finds a matching panel, both are cleared. -/
theorem tabsheet_loading_state (items : List Tab) (panels : List Panel)
    (sel : Nat) (t : Tab) (st : ContentState) (ht : items[sel]? = some t) :
    (panels.findIdx? (fun p => p.tabAttr == some t.id) = none →
      (selectedTabItemChanged (some (sel : Int)) (some items) (some panels) st).2 =
        { st with loading := true,
                  minHeight := if (panels.filter fun p => !p.hidden).length = 1
                               then some st.offsetHeight else st.minHeight }) ∧
    (∀ j, panels.findIdx? (fun p => p.tabAttr == some t.id) = some j →
      (selectedTabItemChanged (some (sel : Int)) (some items) (some panels) st).2 =
        { st with loading := false, minHeight := none }) := by
  have hjs : jsIndex items (sel : Int) = some t := by simp [jsIndex, ht]
  constructor
  · intro hf
    simp [selectedTabItemChanged, hjs, hf]
  · intro j hf
    simp [selectedTabItemChanged, hjs, hf]

/-- Witness for C3: tab `t1` selected over a single visible panel that is
associated with no tab. -/
theorem tabsheet_loading_state_witness :
    (demoLoadingPanels.findIdx? (fun p => p.tabAttr == some "t1") = none →
      (selectedTabItemChanged (some ((0 : Nat) : Int)) (some demoTabs) (some demoLoadingPanels)
          demoState).2 =
        { demoState with loading := true,
                         minHeight := if (demoLoadingPanels.filter fun p => !p.hidden).length = 1
                                      then some demoState.offsetHeight
                                      else demoState.minHeight }) ∧
    (∀ j, demoLoadingPanels.findIdx? (fun p => p.tabAttr == some "t1") = some j →
      (selectedTabItemChanged (some ((0 : Nat) : Int)) (some demoTabs) (some demoLoadingPanels)
          demoState).2 =
        { demoState with loading := false, minHeight := none }) :=
  tabsheet_loading_state demoTabs demoLoadingPanels 0 { id := "t1" } demoState rfl

/-- C5 (amended): a defined but unresolvable selected index is tolerated and
resolves as the loading/placeholder state — loading set and every panel
hidden — provided no panel declares an empty association key; an undefined
`selected` is also tolerated but makes the observer return before touching
anything, leaving panel visibility and host state unchanged. -/
theorem tabsheet_unresolved_selection_tolerated (items : List Tab) (panels : List Panel)
    (sel : Int) (st : ContentState)
    (hoor : jsIndex items sel = none)
    (hempty : ∀ p ∈ panels, p.tabAttr ≠ some "") :
    ((selectedTabItemChanged (some sel) (some items) (some panels) st).2.loading = true ∧
     ∃ ps', (selectedTabItemChanged (some sel) (some items) (some panels) st).1 = some ps' ∧
       ∀ p ∈ ps', p.hidden = true) ∧
    selectedTabItemChanged none (some items) (some panels) st = (some panels, st) := by
  have hf : panels.findIdx? (fun p => p.tabAttr == some "") = none := by
    rw [List.findIdx?_eq_none_iff]
    intro p hp
    simpa using hempty p hp
  refine ⟨⟨?_, ?_⟩, rfl⟩
  · simp [selectedTabItemChanged, hoor, hf]
  · refine ⟨_, rfl, ?_⟩
    intro p hp
    simp only [selectedTabItemChanged] at hp
    rw [List.mem_map] at hp
    obtain ⟨ip, hip, rfl⟩ := hp
    simp [hoor, hf]

/-- Witness for C5's amended statement: `selected = 5` over one tab and one
unassociated panel, and the same pass with `selected` undefined. -/
theorem tabsheet_unresolved_selection_witness :
    ((selectedTabItemChanged (some 5) (some demoTabs) (some demoLoadingPanels)
        demoState).2.loading = true ∧
     ∃ ps', (selectedTabItemChanged (some 5) (some demoTabs) (some demoLoadingPanels)
        demoState).1 = some ps' ∧
       ∀ p ∈ ps', p.hidden = true) ∧
    selectedTabItemChanged none (some demoTabs) (some demoLoadingPanels) demoState =
      (some demoLoadingPanels, demoState) :=
  tabsheet_unresolved_selection_tolerated demoTabs demoLoadingPanels 5 demoState rfl (by decide)

/-- C5 counterexample: with `selected` undefined the pass is skipped
entirely, so contrary to the claim the host does not enter the loading
state and the visible panel stays visible. -/
theorem selected_undefined_no_loading_state_cex :
    (selectedTabItemChanged none (some [{ id := "t1" }])
        (some [{ tabAttr := some "t1", hidden := false }])
        { loading := false, minHeight := none, offsetHeight := 100 }).2.loading = false ∧
    (selectedTabItemChanged none (some [{ id := "t1" }])
        (some [{ tabAttr := some "t1", hidden := false }])
        { loading := false, minHeight := none, offsetHeight := 100 }).1 =
      some [{ tabAttr := some "t1", hidden := false }] :=
  ⟨rfl, rfl⟩

/-- C6: a node in the reserved `tabs` slot that is not a `<vaadin-tabs>`
makes `initCustomNode` throw synchronously, and a `<vaadin-tabs>` node
registers without an error. -/
theorem initCustomNode_throws_iff_wrong_kind (node : TabsSlotNode) :
    (∀ tag, node = TabsSlotNode.other tag →
      initCustomNode node =
        Except.error
          "The \"tabs\" slot of a <vaadin-tabsheet> must only contain a <vaadin-tabs> element!") ∧
    (∀ t, node = TabsSlotNode.vaadinTabs t →
      initCustomNode node = Except.ok { tabs := t, hostItems := t.items }) := by
  constructor <;> rintro x rfl <;> rfl

/-- C2: `checkValidity()` of the checkbox group returns false exactly when
the group is required and the selection value array is empty. -/
theorem checkValidity_false_iff_required_and_empty (g : CheckboxGroup) :
    checkValidity g = false ↔ g.required = true ∧ g.value = [] := by
  rcases g with ⟨v, r, d⟩
  cases r <;> cases v <;> simp [checkValidity]

/-- C4: the value mutators enforce set semantics — adding a present value
and removing an absent value return the array unchanged with no
assignment (so no change notification), while every effective add or
remove produces a freshly built array distinct from the old one. -/
theorem value_mutators_set_semantics (value : List String) (v : String) :
    (value.contains v = true →
      addCheckboxToValue value v = (value, false) ∧
      removeCheckboxFromValue value v = (value.filter (fun x => x != v), true) ∧
      value.filter (fun x => x != v) ≠ value) ∧
    (value.contains v = false →
      addCheckboxToValue value v = (value ++ [v], true) ∧
      value ++ [v] ≠ value ∧
      removeCheckboxFromValue value v = (value, false)) := by
  constructor
  · intro h
    have hv : v ∈ value := by simpa using h
    refine ⟨by simp [addCheckboxToValue, h, hv], by simp [removeCheckboxFromValue, h, hv], ?_⟩
    intro heq
    have hlt : (value.filter (fun x => x != v)).length < value.length := by
      apply List.length_filter_lt_length_iff_exists.mpr
      exact ⟨v, hv, by simp⟩
    rw [heq] at hlt
    omega
  · intro h
    have hv : v ∉ value := by simpa using h
    refine ⟨by simp [addCheckboxToValue, h, hv], ?_, by simp [removeCheckboxFromValue, h, hv]⟩
    intro heq
    have := congrArg List.length heq
    simp at this

/-- C9: registration synchronizes both state owners — a checked checkbox's
value is folded into the group's `value`, an unchecked checkbox whose
value is already a member becomes checked, and afterwards the checkbox's
`checked` flag equals membership of its value in the group's selection. -/
theorem registerCheckbox_syncs_both_directions (g : CheckboxGroup) (cb : Checkbox) :
    ((registerCheckbox g cb).2).value = cb.value ∧
    ((registerCheckbox g cb).2).checked = ((registerCheckbox g cb).1).value.contains cb.value ∧
    (cb.checked = true →
      ((registerCheckbox g cb).1).value = (addCheckboxToValue g.value cb.value).1) ∧
    (cb.checked = false →
      ((registerCheckbox g cb).1).value = g.value ∧
      ((registerCheckbox g cb).2).checked = g.value.contains cb.value) := by
  refine ⟨?_, registerCheckbox_checked_eq_membership g cb, ?_, ?_⟩
  · by_cases hd : g.disabled <;> by_cases hc : cb.checked <;>
      by_cases hm : cb.value ∈ g.value <;>
        simp [registerCheckbox, hd, hc, hm]
  · intro hc
    by_cases hd : g.disabled <;> simp [registerCheckbox, hd, hc]
  · intro hc
    by_cases hd : g.disabled <;> by_cases hm : cb.value ∈ g.value <;>
      simp [registerCheckbox, hd, hc, hm]

/-- C8: unregistering a checked checkbox removes its value from the group's
`value` by rebuilding the array with `filter`: the remaining members keep
their relative order (the result is a sublist of the old array) and, when
the value was a member, the new array is distinct from the old one and an
assignment took place. -/
theorem unregisterCheckbox_removes_and_preserves_order (g : CheckboxGroup) (cb : Checkbox)
    (hchecked : cb.checked = true) :
    ((unregisterCheckbox g cb).1).value = g.value.filter (fun x => x != cb.value) ∧
    cb.value ∉ ((unregisterCheckbox g cb).1).value ∧
    ((unregisterCheckbox g cb).1).value.Sublist g.value ∧
    (cb.value ∈ g.value →
      ((unregisterCheckbox g cb).1).value ≠ g.value ∧ (unregisterCheckbox g cb).2 = true) := by
  have hfe : ((unregisterCheckbox g cb).1).value = g.value.filter (fun x => x != cb.value) := by
    by_cases hm : cb.value ∈ g.value
    · simp [unregisterCheckbox, removeCheckboxFromValue, hchecked, hm]
    · simp [unregisterCheckbox, removeCheckboxFromValue, hchecked, hm]
      rw [eq_comm, List.filter_eq_self]
      intro a ha
      simp
      rintro rfl
      exact hm ha
  refine ⟨hfe, ?_, ?_, ?_⟩
  · rw [hfe]
    simp
  · rw [hfe]
    exact List.filter_sublist g.value
  · intro hm
    constructor
    · rw [hfe]
      intro heq
      have hlt : (g.value.filter (fun x => x != cb.value)).length < g.value.length := by
        apply List.length_filter_lt_length_iff_exists.mpr
        exact ⟨cb.value, hm, by simp⟩
      rw [heq] at hlt
      omega
    · simp [unregisterCheckbox, removeCheckboxFromValue, hchecked, hm]

/-- Witness for C8: removing the checked checkbox `b` from a group whose
value is `[a, b, c]`. -/
theorem unregisterCheckbox_witness :
    ((unregisterCheckbox demoGroupABC demoChecked).1).value =
      demoGroupABC.value.filter (fun x => x != demoChecked.value) ∧
    demoChecked.value ∉ ((unregisterCheckbox demoGroupABC demoChecked).1).value ∧
    ((unregisterCheckbox demoGroupABC demoChecked).1).value.Sublist demoGroupABC.value ∧
    (demoChecked.value ∈ demoGroupABC.value →
      ((unregisterCheckbox demoGroupABC demoChecked).1).value ≠ demoGroupABC.value ∧
      (unregisterCheckbox demoGroupABC demoChecked).2 = true) :=
  unregisterCheckbox_removes_and_preserves_order demoGroupABC demoChecked rfl

/-- C7 (amended): a checkbox lacking the `value` attribute registers without
an error and participates through its effective value, and the batch
diagnostic is logged when such a checkbox's effective value is empty or
the DOM default `"on"`. -/
theorem checkbox_without_value_attr_warns_and_participates
    (g : CheckboxGroup) (batch : List Checkbox) (cb : Checkbox)
    (hmem : cb ∈ batch) (hattr : cb.hasValueAttr = false)
    (hval : cb.value = "" ∨ cb.value = "on") :
    warnOfCheckboxesWithoutValue batch = true ∧
    ((registerCheckbox g cb).2).checked = ((registerCheckbox g cb).1).value.contains cb.value := by
  constructor
  · rw [warnOfCheckboxesWithoutValue, List.any_eq_true]
    refine ⟨cb, hmem, ?_⟩
    rcases hval with h | h <;> simp [hattr, h]
  · exact registerCheckbox_checked_eq_membership g cb

/-- Witness for C7's amended statement: a checked checkbox without a `value`
attribute and with the default effective value `"on"`. -/
theorem checkbox_without_value_attr_witness :
    warnOfCheckboxesWithoutValue [demoNoValueCheckbox] = true ∧
    ((registerCheckbox demoGroup demoNoValueCheckbox).2).checked =
      ((registerCheckbox demoGroup demoNoValueCheckbox).1).value.contains
        demoNoValueCheckbox.value :=
  checkbox_without_value_attr_warns_and_participates demoGroup [demoNoValueCheckbox]
    demoNoValueCheckbox (by decide) rfl (Or.inr rfl)

/-- C7 counterexample: a checkbox without the `value` attribute whose value
property was set to `"v1"` produces no warning, contrary to the claim that
every attribute-less checkbox makes the batch log a diagnostic. -/
theorem warn_missing_attr_custom_value_cex :
    warnOfCheckboxesWithoutValue
      [{ value := "v1", checked := true, disabled := false, hasValueAttr := false }] = false := by
  decide

/-- C10: the `__valueChanged` observer reads `value.length` with no null
guard, so a nullish `value` (null or undefined assigned to the public
property) throws a TypeError. -/
theorem valueChanged_nullish_throws (oldValue : Option (List String)) (st : ValueObsState) :
    valueChanged none oldValue st =
      Except.error "TypeError: cannot read properties of a nullish value" := rfl

end WebComponents
